import Mathlib

/-!
Shallow embedding of the coder-agent pipeline (planner, context loader,
exemplar finder, code generator, validator, tribal-knowledge loader and the
two HTTP entry points).  External collaborators (the LLM completion call,
`json.loads`, the deep-search ranking utility, the section-flattening
utility, object storage and the databases) are modelled as oracle
parameters: each call site receives the outcome that call would produce, and
theorems quantify over all outcomes.  Python values passed around as parsed
JSON / dynamic data are modelled by the `Json` type below, with `int` and
`float` kept distinct because the source checks `isinstance(idx, int)`.
-/

/-- Dynamic Python/JSON value.  `float` carries a rational stand-in for the
IEEE value; the only float literals the claims touch are 0.0 and 0.7, used
purely as tokens compared for equality. -/
inductive Json where
  | null
  | bool (b : Bool)
  | int (n : Int)
  | float (q : Rat)
  | str (s : String)
  | arr (elems : List Json)
  | obj (fields : List (String × Json))
deriving Repr

/-- A Python dict with string keys, as used for section records. -/
abbrev PyDict := List (String × Json)

/-- First-match association-list lookup: Python `d[k]` / `d.get(k)` on a
dict whose insertion order the list mirrors (Python dict keys are unique). -/
def alistLookup : List (String × Json) → String → Option Json
  | [], _ => none
  | (k, v) :: rest, key => if k = key then some v else alistLookup rest key

/-- Python `d[k] = v`: replace in place if the key exists, else append. -/
def alistSet : List (String × Json) → String → Json → List (String × Json)
  | [], k, v => [(k, v)]
  | (k0, v0) :: rest, k, v =>
    if k0 = k then (k, v) :: rest else (k0, v0) :: alistSet rest k v

/-- Python `d.get(k, dflt)`. -/
def dictGetD (d : PyDict) (k : String) (dflt : Json) : Json :=
  (alistLookup d k).getD dflt

/-- Python truthiness `bool(x)` on a dynamic value. -/
def truthy : Json → Bool
  | .null => false
  | .bool b => b
  | .int n => n != 0
  | .float q => q != 0
  | .str s => s != ""
  | .arr xs => !xs.isEmpty
  | .obj fs => !fs.isEmpty

/-- Python `isinstance(x, int)` plus conversion: `bool` is a subclass of
`int` in Python (`True` indexes as 1), other types are not ints. -/
def pyAsInt : Json → Option Int
  | .int n => some n
  | .bool b => some (if b then 1 else 0)
  | _ => none

/-- Is the value a Python dict (`isinstance(x, dict)`)? -/
def Json.isObj : Json → Bool
  | .obj _ => true
  | _ => false

/-- Is the value a Python list (`isinstance(x, list)`)? -/
def Json.isArr : Json → Bool
  | .arr _ => true
  | _ => false

/-- Python `repr(x)`; strings are quoted.  Floats render via the rational
stand-in — the rendering is only ever compared against `"code"`, which no
numeric or container rendering can equal. -/
def pyRepr : Json → String
  | .null => "None"
  | .bool true => "True"
  | .bool false => "False"
  | .int n => toString n
  | .float q => toString q
  | .str s => "\x27" ++ s ++ "\x27"
  | .arr xs => "[" ++ String.intercalate ", " (xs.attach.map fun x => pyRepr x.1) ++ "]"
  | .obj fs =>
    "\x7b" ++
      String.intercalate ", "
        (fs.attach.map fun kv => "\x27" ++ kv.1.1 ++ "\x27: " ++ pyRepr kv.1.2) ++
    "\x7d"
decreasing_by
· have h := List.sizeOf_lt_of_mem x.2
  simp only [Json.arr.sizeOf_spec]
  omega
· have h := List.sizeOf_lt_of_mem kv.2
  rcases kv with ⟨⟨k, v⟩, hm⟩
  simp only [Prod.mk.sizeOf_spec] at h
  simp only [Json.obj.sizeOf_spec]
  omega

/-- Python `str(x)`: identity on strings, `repr` otherwise (containers
render their elements with `repr`). -/
def pyStr : Json → String
  | .str s => s
  | j => pyRepr j

/-- Python `s.lower()` (ASCII-faithful; kernel-reducible by structural
recursion over the character list). -/
def pyLower (s : String) : String := ⟨s.data.map Char.toLower⟩

/-- Python `s.strip()`: drop leading and trailing whitespace. -/
def pyStrip (s : String) : String :=
  ⟨((s.data.dropWhile Char.isWhitespace).reverse.dropWhile Char.isWhitespace).reverse⟩

/-- Python list indexing `l[i]`: non-negative indices from the front,
negative indices from the end, `none` models the raised `IndexError`. -/
def pyIndex {α : Type} (l : List α) (i : Int) : Option α :=
  if 0 ≤ i then l.get? i.toNat
  else if 0 ≤ (l.length : Int) + i then l.get? ((l.length : Int) + i).toNat
  else none

/-! ## Exemplar finder (`search_agent.find_function_exemplars`) -/

/-- The transient exemplar record built by `_build_exemplar`. -/
structure Exemplar where
  index : Int
  artifact_name : Json
  document_name : Json
  section_name : Json
  description : Json
deriving Repr

/-- `_build_exemplar(section_idx)`: Python indexing (so negative indices read
from the end), `none` models the raised `IndexError`; the `index` field
reports the raw (possibly negative) index. -/
def build_exemplar (code_sections : List PyDict) (section_idx : Int) : Option Exemplar :=
  (pyIndex code_sections section_idx).map fun entry =>
    { index := section_idx
      artifact_name := dictGetD entry "artifact_name" .null
      document_name := dictGetD entry "document_name" .null
      section_name := dictGetD entry "section_name" .null
      description := dictGetD entry "description" .null }

/-- The neighbor loop `for offset in (-1, 1, -2, 2)` of
`find_function_exemplars`: break once `max_exemplars` entries are collected,
append the neighbor only when `0 <= neighbor < len(code_sections)` (so the
`build_exemplar` there can never fail; `Option.toList` realizes that). -/
def neighborLoop (code_sections : List PyDict) (idx max_exemplars : Int) :
    List Int → List Exemplar → List Exemplar
  | [], acc => acc
  | off :: rest, acc =>
    if (acc.length : Int) ≥ max_exemplars then acc
    else
      let neighbor := idx + off
      if 0 ≤ neighbor ∧ neighbor < (code_sections.length : Int) then
        neighborLoop code_sections idx max_exemplars rest
          (acc ++ (build_exemplar code_sections neighbor).toList)
      else
        neighborLoop code_sections idx max_exemplars rest acc

/-- `find_function_exemplars(requirement, code_sections, max_exemplars)`.
`dsResult` is the oracle outcome of the external `deep_search(requirement,
code_sections)` call; `.error` models an uncaught `IndexError` from the
unchecked `code_sections[idx]` in `_build_exemplar`. -/
def find_function_exemplars (requirement : String) (code_sections : List PyDict)
    (dsResult : Json) (max_exemplars : Int := 3) : Except String (List Exemplar) :=
  if code_sections.isEmpty then .ok []
  else
    match dsResult with
    | .obj fields =>
      match pyAsInt ((alistLookup fields "chosen_section_index").getD .null) with
      | none => .ok []
      | some idx =>
        match build_exemplar code_sections idx with
        | none => .error "IndexError: list index out of range"
        | some primary =>
          .ok (neighborLoop code_sections idx max_exemplars [-1, 1, -2, 2] [primary])
    | _ => .ok []

/-! ## Tribal-knowledge loader (`tribal_kb_loader.load_tribal_kb`) -/

/-- Outcome of probing the filesystem for a tribal-KB file: the file is
absent (`os.path.exists` false), opening/parsing raises, or parsing yields
a JSON value. -/
inductive FileOutcome where
  | missing
  | raises
  | content (j : Json)

/-- The body of `load_tribal_kb` without its `lru_cache` wrapper.  `fs` is
the filesystem oracle keyed by path.  The second component records whether
the filesystem was touched (an empty project type returns before the
`os.path.exists` probe). -/
def load_tribal_kb_uncached (fs : String → FileOutcome) (project_type : String) :
    Json × Bool :=
  if project_type = "" then (.obj [], false)
  else
    let normalized := pyLower (pyStrip project_type)
    let file_path := "tribal_kb/" ++ normalized ++ ".json"
    match fs file_path with
    | .missing => (.obj [], true)
    | .raises => (.obj [], true)
    | .content data => (if data.isObj then data else .obj [], true)

/-- The `functools.lru_cache(maxsize=32)` state: entries most-recent-first,
keyed by the raw argument string. -/
abbrev KBCache := List (String × Json)

/-- `load_tribal_kb` as cached by `@lru_cache(maxsize=32)`: a hit moves the
entry to the front and recomputes nothing; a miss computes the body, inserts
the entry at the front and evicts beyond capacity 32.  Returns
(value, new cache state, whether the filesystem was accessed). -/
def load_tribal_kb (fs : String → FileOutcome) (cache : KBCache)
    (project_type : String) : Json × KBCache × Bool :=
  match alistLookup cache project_type with
  | some v => (v, (project_type, v) :: cache.filter (fun kv => kv.1 ≠ project_type), false)
  | none =>
    let r := load_tribal_kb_uncached fs project_type
    (r.1, ((project_type, r.1) :: cache).take 32, r.2)

/-! ## Planner (`navigator_agent.plan_code_generation`) -/

/-- Outcome of a `call_llm(prompt)` call at one call site: `.error` models a
raised exception, `.ok none` a `None` return, `.ok (some s)` a string. -/
abbrev LLMOutcome := Except String (Option String)

/-- Python `call_llm(prompt) or ""` combined with the planner's
`except: raw = ""`: the raw string the caller continues with. -/
def llmRaw : LLMOutcome → String
  | .error _ => ""
  | .ok v => v.getD ""

/-- The planner's hard-coded default plan: one `main_module` component whose
description is the raw requirement at priority 1, and `[requirements]` as
the search queries. -/
def default_plan (requirements : String) : Json :=
  .obj
    [("components",
      .arr [.obj [("name", .str "main_module"),
                  ("description", .str requirements),
                  ("priority", .int 1)]]),
     ("search_queries", .arr [.str requirements])]

/-- Python `plan[k] = v` on the plan dict. -/
def Json.setKey : Json → String → Json → Json
  | .obj fs, k, v => .obj (alistSet fs k v)
  | j, _, _ => j

/-- `plan_code_generation(requirements, project_type)`.  `llm` is the
outcome of the planning `call_llm`; `loads` is the `json.loads` oracle
(`none` models a raised parse error). -/
def plan_code_generation (requirements : String) (project_type : String)
    (llm : LLMOutcome) (loads : String → Option Json) : Json :=
  let raw := llmRaw llm
  let plan := default_plan requirements
  if raw = "" then plan
  else
    match loads raw with
    | none => plan
    | some parsed =>
      match parsed with
      | .obj fields =>
        let plan1 :=
          match alistLookup fields "components" with
          | some (.arr cs) => plan.setKey "components" (.arr cs)
          | _ => plan
        match alistLookup fields "search_queries" with
        | some (.arr qs) => plan1.setKey "search_queries" (.arr qs)
        | _ => plan1
      | _ => plan

/-! ## Code generator and validator (`code_agent`) -/

/-- `generate_code_with_exemplars`: builds the prompt (the prompt text does
not influence control flow and is not reproduced here; the `call_llm`
outcome at this site is the oracle `llm`), then `return call_llm(prompt) or
""`, re-raising any exception (`.error`). -/
def generate_code_with_exemplars (requirement : String) (project_type : String)
    (exemplars : List Exemplar) (tribal_kb : Json) (conversation_history : String)
    (llm : LLMOutcome) : Except String String :=
  match llm with
  | .error e => .error e
  | .ok v => .ok (v.getD "")

/-- The fixed details dict returned for empty/whitespace-only code. -/
def empty_code_details : Json :=
  .obj [("is_valid", .bool false),
        ("errors", .arr [.str "Code generation returned empty output"]),
        ("warnings", .arr []),
        ("completeness_score", .float 0),
        ("suggestions", .arr [.str "Retry generation with simplified requirements"])]

/-- The optimistic fallback details dict, parameterized by its warning text. -/
def optimistic_fallback (warning : String) : Json :=
  .obj [("is_valid", .bool true),
        ("errors", .arr []),
        ("warnings", .arr [.str warning]),
        ("completeness_score", .float ((7 : Rat)/10)),
        ("suggestions", .arr [])]

/-- `validate_generated_code(code, project_type, requirements)`.  `llm` is
the outcome of the validation `call_llm` (only reached for non-whitespace
code), `loads` the `json.loads` oracle.  Returns `(is_valid, details)`. -/
def validate_generated_code (code : String) (project_type : String)
    (requirements : String) (llm : LLMOutcome) (loads : String → Option Json) :
    Bool × Json :=
  if pyStrip code = "" then
    (false, empty_code_details)
  else
    match llm with
    | .error _ =>
      (true, optimistic_fallback "Validation step failed; treat code as unvalidated.")
    | .ok v =>
      let raw := v.getD ""
      let details :=
        match loads raw with
        | some j =>
          if j.isObj then j
          else optimistic_fallback "Validation response was not parseable; treat as best-effort."
        | none => optimistic_fallback "Validation response was not parseable; treat as best-effort."
      match details with
      | .obj fields => (truthy ((alistLookup fields "is_valid").getD (.bool true)), details)
      | _ => (truthy .null, details)

/-! ## Context loaders (`context_agent`) -/

/-- The per-entry test of the context loaders:
`str(entry.get("artifact_name", "")).lower() == "code"`. -/
def is_code_section (entry : PyDict) : Bool :=
  pyLower (pyStr (dictGetD entry "artifact_name" (.str ""))) = "code"

/-- The shared code-section selection of both context loaders: keep sections
whose artifact name reads `"code"` (case-insensitive), falling back to the
full flattened list when that filter is empty. -/
def code_sections_of (all_sections : List PyDict) : List PyDict :=
  let code_sections := all_sections.filter is_code_section
  if code_sections.isEmpty then all_sections else code_sections

/-- `_load_project_kb_json(db, project_id)`: project lookup, `kb_json_path`
presence check (Python falsy: `None` or `""` both fail, modelled as `""`),
then S3 fetch + UTF-8 decode + `json.loads` (their combined outcome is the
oracle `s3Content`), then the `isinstance(project_data, dict)` check. -/
def load_project_kb_json (projectFound : Bool) (kb_json_path : String)
    (s3Content : Except String Json) : Except String Json :=
  if !projectFound then .error "Project not found"
  else if kb_json_path = "" then .error "Project does not have a knowledgebase JSON file"
  else
    match s3Content with
    | .error e => .error e
    | .ok j => if j.isObj then .ok j else .error "KB JSON is not a dictionary"

/-- The context bundle returned by both loaders. -/
structure CoderContext where
  project_data : Json
  code_sections : List PyDict
  tribal_kb : Json
  conversation_history : String

/-- `load_coder_context`: user check, KB load (the composed
`_load_project_kb_json` outcome is `kb`), external `flatten_sections`
oracle, code-section filter, tribal KB value and history string (the latter
two computed by collaborators modelled elsewhere / swallowing errors). -/
def load_coder_context (userFound : Bool) (kb : Except String Json)
    (flatten : Json → List PyDict) (tribal_kb : Json) (history : String) :
    Except String CoderContext :=
  if !userFound then .error "User not found"
  else
    match kb with
    | .error e => .error e
    | .ok project_data =>
      .ok { project_data := project_data
            code_sections := code_sections_of (flatten project_data)
            tribal_kb := tribal_kb
            conversation_history := history }

/-- `load_coder_context_sqlite`: same selection over a pre-loaded KB
document; never raises. -/
def load_coder_context_sqlite (project_data : Json)
    (flatten : Json → List PyDict) (tribal_kb : Json) (history : String) :
    CoderContext :=
  { project_data := project_data
    code_sections := code_sections_of (flatten project_data)
    tribal_kb := tribal_kb
    conversation_history := history }

/-! ## HTTP entry points (`coder_agent_routes` and `coder_agent_routes_sqlite`) -/

/-- Audit-record status (`ExecutionStatusEnum`). -/
inductive ExecStatus where
  | STARTED
  | COMPLETED
  | AWAITING_FEEDBACK
  | FAILED
deriving DecidableEq, Repr

/-- The observable parts of the 201 response body. -/
structure RouteBody where
  success : Bool
  message : String
  plan : Json
  exemplars_used : List Exemplar
  code : String
  validation : Json
deriving Repr

/-- A route invocation's observable outcome: HTTP status, the
`HTTPException` detail on error, the JSON body on 201, and the final status
of the audit execution record (`none` when no record exists). -/
structure RouteResult where
  status : Nat
  detail : Option String
  body : Option RouteBody
  execStatus : Option ExecStatus
deriving Repr

/-- Oracles for one remote-variant request: entity-lookup outcomes, the
storage/LLM/parse/ranking call outcomes, and the request fields.  Memory
writes and audit-row contents other than the status are unobservable here
and not modelled (failures there are swallowed by the source). -/
structure RemoteOracles where
  user_id : Int
  project_id : Int
  requirements : String
  project_type : String
  userExists : Bool
  projectExists : Bool
  kb_json_path : String
  s3Content : Except String Json
  flatten : Json → List PyDict
  tribal_kb : Json
  history : String
  plannerLLM : LLMOutcome
  genLLM : LLMOutcome
  valLLM : LLMOutcome
  loads : String → Option Json
  dsResult : Json

/-- The `try:` block of the remote route, steps 4-7: planner, context
loader, exemplar search, generation, validation.  Any `.error` is an
uncaught exception escaping to the route's generic handler. -/
def remote_pipeline (o : RemoteOracles) :
    Except String (Json × List Exemplar × String × Bool × Json) :=
  let plan := plan_code_generation o.requirements o.project_type o.plannerLLM o.loads
  match load_coder_context o.userExists
      (load_project_kb_json o.projectExists o.kb_json_path o.s3Content)
      o.flatten o.tribal_kb o.history with
  | .error e => .error e
  | .ok ctx =>
    match find_function_exemplars o.requirements ctx.code_sections o.dsResult 3 with
    | .error e => .error e
    | .ok exemplars =>
      match generate_code_with_exemplars o.requirements o.project_type exemplars
          ctx.tribal_kb ctx.conversation_history o.genLLM with
      | .error e => .error e
      | .ok raw_code =>
        let v := validate_generated_code raw_code o.project_type o.requirements
          o.valLLM o.loads
        .ok (plan, exemplars, raw_code, v.1, v.2)

/-- `POST /coder/generate`, remote variant: 404 checks, audit record
creation (STARTED), pipeline, then 201 with COMPLETED/AWAITING_FEEDBACK by
validity, or 500 + FAILED with the exception text embedded in the detail. -/
def coder_generate_remote (o : RemoteOracles) : RouteResult :=
  if !o.userExists then
    { status := 404
      detail := some ("User with ID " ++ toString o.user_id ++ " not found")
      body := none, execStatus := none }
  else if !o.projectExists then
    { status := 404
      detail := some ("Project with ID " ++ toString o.project_id ++ " not found")
      body := none, execStatus := none }
  else
    match remote_pipeline o with
    | .ok (plan, exemplars, raw_code, is_valid, details) =>
      { status := 201
        detail := none
        body := some
          { success := true
            message := if is_valid then "Code generation completed"
                       else "Code generation completed with warnings"
            plan := plan, exemplars_used := exemplars
            code := raw_code, validation := details }
        execStatus := some (if is_valid then ExecStatus.COMPLETED
                            else ExecStatus.AWAITING_FEEDBACK) }
    | .error e =>
      { status := 500
        detail := some ("Coder agent failed: " ++ e)
        body := none
        execStatus := some ExecStatus.FAILED }

/-- Oracles for one SQLite-variant request.  `projectData` is the
`find_project_by_name(...).to_dict()` outcome (`none`: not found). -/
structure SqliteOracles where
  project_name : String
  requirements : String
  project_type : String
  projectData : Option Json
  flatten : Json → List PyDict
  tribal_kb : Json
  history : String
  plannerLLM : LLMOutcome
  genLLM : LLMOutcome
  valLLM : LLMOutcome
  loads : String → Option Json
  dsResult : Json

/-- The `try:` block of the SQLite route after the project is found. -/
def sqlite_pipeline (o : SqliteOracles) (project_data : Json) :
    Except String (Json × List Exemplar × String × Bool × Json) :=
  let plan := plan_code_generation o.requirements o.project_type o.plannerLLM o.loads
  let ctx := load_coder_context_sqlite project_data o.flatten o.tribal_kb o.history
  match find_function_exemplars o.requirements ctx.code_sections o.dsResult 3 with
  | .error e => .error e
  | .ok exemplars =>
    match generate_code_with_exemplars o.requirements o.project_type exemplars
        ctx.tribal_kb ctx.conversation_history o.genLLM with
    | .error e => .error e
    | .ok raw_code =>
      let v := validate_generated_code raw_code o.project_type o.requirements
        o.valLLM o.loads
      .ok (plan, exemplars, raw_code, v.1, v.2)

/-- `POST /coder/generate`, SQLite variant: 404 when the project JSON is
absent (the `HTTPException` is re-raised untouched), else 201 with the same
message selection; no audit record exists in this variant. -/
def coder_generate_sqlite (o : SqliteOracles) : RouteResult :=
  match o.projectData with
  | none =>
    { status := 404
      detail := some ("Project \x27" ++ o.project_name ++
        "\x27 not found in project_json directory")
      body := none, execStatus := none }
  | some project_data =>
    match sqlite_pipeline o project_data with
    | .ok (plan, exemplars, raw_code, is_valid, details) =>
      { status := 201
        detail := none
        body := some
          { success := true
            message := if is_valid then "Code generation completed"
                       else "Code generation completed with warnings"
            plan := plan, exemplars_used := exemplars
            code := raw_code, validation := details }
        execStatus := none }
    | .error e =>
      { status := 500
        detail := some ("Coder agent failed: " ++ e)
        body := none
        execStatus := none }

/-! ## Shared concrete fixtures for witnesses and counterexamples -/

/-- A five-element code-section list matching the spec's worked examples. -/
def sections5 : List PyDict :=
  [[("artifact_name", .str "Code"), ("document_name", .str "d"), ("section_name", .str "s0"), ("description", .str "c0")],
   [("artifact_name", .str "Code"), ("document_name", .str "d"), ("section_name", .str "s1"), ("description", .str "c1")],
   [("artifact_name", .str "Code"), ("document_name", .str "d"), ("section_name", .str "s2"), ("description", .str "c2")],
   [("artifact_name", .str "Code"), ("document_name", .str "d"), ("section_name", .str "s3"), ("description", .str "c3")],
   [("artifact_name", .str "Code"), ("document_name", .str "d"), ("section_name", .str "s4"), ("description", .str "c4")]]

/-- A one-element code-section list. -/
def sections1 : List PyDict :=
  [[("artifact_name", .str "Code"), ("section_name", .str "only")]]

/-- A deep-search outcome choosing index `i`. -/
def dsChoose (i : Int) : Json := .obj [("chosen_section_index", .int i)]

/-- A filesystem with no tribal-KB files at all. -/
def missingFS : String → FileOutcome := fun _ => .missing

/-- A `json.loads` oracle that fails on every string. -/
def loadsNone : String → Option Json := fun _ => none

/-! ## C4 -/

/-- C4: for every code input that is empty or whitespace-only, the Validator
returns `is_valid=False` with a details record carrying the fixed non-empty
error message, an empty warnings list, completeness score 0.0 and a
non-empty suggestions list; the result does not depend on the LLM oracle,
i.e. no LLM call is made. -/
theorem validator_empty_code_short_circuit
    (code project_type requirements : String) (llm : LLMOutcome)
    (loads : String → Option Json) (h : pyStrip code = "") :
    validate_generated_code code project_type requirements llm loads =
      (false, Json.obj
        [("is_valid", .bool false),
         ("errors", .arr [.str "Code generation returned empty output"]),
         ("warnings", .arr []),
         ("completeness_score", .float 0),
         ("suggestions", .arr [.str "Retry generation with simplified requirements"])]) := by
  simp [validate_generated_code, h, empty_code_details]

/-- Witness for C4 at whitespace-only code and a failing LLM oracle. -/
theorem validator_empty_code_short_circuit_witness :
    validate_generated_code " \t " "etl" "req" (.error "llm down") loadsNone =
      (false, Json.obj
        [("is_valid", .bool false),
         ("errors", .arr [.str "Code generation returned empty output"]),
         ("warnings", .arr []),
         ("completeness_score", .float 0),
         ("suggestions", .arr [.str "Retry generation with simplified requirements"])]) :=
  validator_empty_code_short_circuit " \t " "etl" "req" (.error "llm down") loadsNone
    (by decide)

/-! ## C6 -/

/-- C6: for non-whitespace code, a raised LLM call yields the optimistic
fallback `(True, {is_valid: True, errors: [], warnings: ["Validation step
failed..."], completeness_score: 0.7, suggestions: []})`; a non-JSON or
non-object response yields the same shape with the other warning text; and
for a parsed object the returned boolean is the truthiness of its
`is_valid` field, defaulting to `True` when absent. -/
theorem validator_fallbacks (code project_type requirements : String)
    (loads : String → Option Json) (hc : pyStrip code ≠ "") :
    (∀ e, validate_generated_code code project_type requirements (.error e) loads =
      (true, Json.obj
        [("is_valid", .bool true), ("errors", .arr []),
         ("warnings", .arr [.str "Validation step failed; treat code as unvalidated."]),
         ("completeness_score", .float ((7 : Rat)/10)), ("suggestions", .arr [])]))
  ∧ (∀ v, loads (v.getD "") = none →
      validate_generated_code code project_type requirements (.ok v) loads =
      (true, Json.obj
        [("is_valid", .bool true), ("errors", .arr []),
         ("warnings", .arr [.str "Validation response was not parseable; treat as best-effort."]),
         ("completeness_score", .float ((7 : Rat)/10)), ("suggestions", .arr [])]))
  ∧ (∀ v j, loads (v.getD "") = some j → j.isObj = false →
      validate_generated_code code project_type requirements (.ok v) loads =
      (true, Json.obj
        [("is_valid", .bool true), ("errors", .arr []),
         ("warnings", .arr [.str "Validation response was not parseable; treat as best-effort."]),
         ("completeness_score", .float ((7 : Rat)/10)), ("suggestions", .arr [])]))
  ∧ (∀ v fields, loads (v.getD "") = some (.obj fields) →
      validate_generated_code code project_type requirements (.ok v) loads =
      (truthy ((alistLookup fields "is_valid").getD (.bool true)), .obj fields))
  ∧ (∀ v fields, loads (v.getD "") = some (.obj fields) →
      alistLookup fields "is_valid" = none →
      (validate_generated_code code project_type requirements (.ok v) loads).1 = true) := by
  refine ⟨fun e => ?_, fun v h => ?_, fun v j h hobj => ?_, fun v fields h => ?_,
    fun v fields h habs => ?_⟩
  · simp [validate_generated_code, hc, optimistic_fallback]
  · simp [validate_generated_code, hc, h, optimistic_fallback, alistLookup, truthy]
  · cases j <;>
      simp_all [validate_generated_code, hc, h, optimistic_fallback, Json.isObj,
        alistLookup, truthy]
  · simp [validate_generated_code, hc, h, Json.isObj]
  · simp [validate_generated_code, hc, h, habs, Json.isObj, truthy]

/-- Witness for C6: a failing call, an unparseable response and a parsed
`{"is_valid": false}` verdict on concrete non-empty code. -/
theorem validator_fallbacks_witness :
    (validate_generated_code "print(1)" "etl" "req" (.error "timeout") loadsNone =
      (true, Json.obj
        [("is_valid", .bool true), ("errors", .arr []),
         ("warnings", .arr [.str "Validation step failed; treat code as unvalidated."]),
         ("completeness_score", .float ((7 : Rat)/10)), ("suggestions", .arr [])]))
  ∧ (validate_generated_code "print(1)" "etl" "req" (.ok (some "not json")) loadsNone =
      (true, Json.obj
        [("is_valid", .bool true), ("errors", .arr []),
         ("warnings", .arr [.str "Validation response was not parseable; treat as best-effort."]),
         ("completeness_score", .float ((7 : Rat)/10)), ("suggestions", .arr [])]))
  ∧ (validate_generated_code "print(1)" "etl" "req" (.ok (some "verdict"))
      (fun s => if s = "verdict" then some (.obj [("is_valid", .bool false)]) else none) =
      (false, .obj [("is_valid", .bool false)])) := by
  refine ⟨?_, ?_, ?_⟩
  · exact (validator_fallbacks "print(1)" "etl" "req" loadsNone (by decide)).1 "timeout"
  · exact (validator_fallbacks "print(1)" "etl" "req" loadsNone (by decide)).2.1
      (some "not json") rfl
  · have h := (validator_fallbacks "print(1)" "etl" "req"
      (fun s => if s = "verdict" then some (.obj [("is_valid", .bool false)]) else none)
      (by decide)).2.2.2.1 (some "verdict") [("is_valid", .bool false)] (by simp)
    simpa [alistLookup, truthy] using h

/-! ## C8 -/

/-- C8: an empty section list yields `[]` regardless of the requirement and
of the deep-search outcome; a non-dict deep-search result yields `[]`; and a
dict whose `chosen_section_index` is missing or not a Python integer yields
`[]` — all returned normally, not raised. -/
theorem find_exemplars_guard_failures :
    (∀ (requirement : String) (dsResult : Json) (maxE : Int),
      find_function_exemplars requirement [] dsResult maxE = .ok [])
  ∧ (∀ (requirement : String) (secs : List PyDict) (dsResult : Json) (maxE : Int),
      dsResult.isObj = false →
      find_function_exemplars requirement secs dsResult maxE = .ok [])
  ∧ (∀ (requirement : String) (secs : List PyDict) (fields : List (String × Json))
      (maxE : Int),
      pyAsInt ((alistLookup fields "chosen_section_index").getD .null) = none →
      find_function_exemplars requirement secs (.obj fields) maxE = .ok []) := by
  refine ⟨fun requirement dsResult maxE => ?_, fun requirement secs dsResult maxE h => ?_,
    fun requirement secs fields maxE h => ?_⟩
  · cases dsResult <;> simp [find_function_exemplars]
  · cases dsResult <;> simp_all [find_function_exemplars, Json.isObj]
  · simp only [find_function_exemplars, h]
    split <;> simp

/-- Witness for C8: empty pool, a list-shaped deep-search result, and a
string-valued chosen index, each on concrete inputs. -/
theorem find_exemplars_guard_failures_witness :
    find_function_exemplars "req" [] (dsChoose 2) 3 = .ok []
  ∧ find_function_exemplars "req" sections5 (.arr [.int 2]) 3 = .ok []
  ∧ find_function_exemplars "req" sections5 (.obj [("chosen_section_index", .str "2")]) 3 = .ok []
  ∧ find_function_exemplars "req" sections5 (.obj [("other", .int 2)]) 3 = .ok [] := by
  refine ⟨find_exemplars_guard_failures.1 "req" (dsChoose 2) 3,
    find_exemplars_guard_failures.2.1 "req" sections5 (.arr [.int 2]) 3 rfl,
    find_exemplars_guard_failures.2.2 "req" sections5 [("chosen_section_index", .str "2")] 3 (by simp [alistLookup, pyAsInt]),
    find_exemplars_guard_failures.2.2 "req" sections5 [("other", .int 2)] 3 (by simp [alistLookup, pyAsInt])⟩

/-! ## C5 -/

/-- C5: the Planner starts from the default plan (single `main_module`
component with the raw requirement as description and priority 1, and
`[requirement]` as search queries); an empty/raising/non-JSON/non-object
response leaves it verbatim; `components` and `search_queries` are each
overridden only when present as a list, the other default field staying
untouched. -/
theorem plan_default_and_override
    (requirements project_type : String) (llm : LLMOutcome)
    (loads : String → Option Json) :
    (llmRaw llm = "" →
      plan_code_generation requirements project_type llm loads =
        default_plan requirements)
  ∧ (llmRaw llm ≠ "" → loads (llmRaw llm) = none →
      plan_code_generation requirements project_type llm loads =
        default_plan requirements)
  ∧ (∀ j, llmRaw llm ≠ "" → loads (llmRaw llm) = some j → j.isObj = false →
      plan_code_generation requirements project_type llm loads =
        default_plan requirements)
  ∧ (∀ fields cs, llmRaw llm ≠ "" → loads (llmRaw llm) = some (.obj fields) →
      alistLookup fields "components" = some (.arr cs) →
      (∀ qs, alistLookup fields "search_queries" ≠ some (.arr qs)) →
      plan_code_generation requirements project_type llm loads =
        .obj [("components", .arr cs),
              ("search_queries", .arr [.str requirements])])
  ∧ (∀ fields qs, llmRaw llm ≠ "" → loads (llmRaw llm) = some (.obj fields) →
      (∀ cs, alistLookup fields "components" ≠ some (.arr cs)) →
      alistLookup fields "search_queries" = some (.arr qs) →
      plan_code_generation requirements project_type llm loads =
        .obj [("components",
               .arr [.obj [("name", .str "main_module"),
                           ("description", .str requirements),
                           ("priority", .int 1)]]),
              ("search_queries", .arr qs)])
  ∧ (∀ fields cs qs, llmRaw llm ≠ "" → loads (llmRaw llm) = some (.obj fields) →
      alistLookup fields "components" = some (.arr cs) →
      alistLookup fields "search_queries" = some (.arr qs) →
      plan_code_generation requirements project_type llm loads =
        .obj [("components", .arr cs), ("search_queries", .arr qs)]) := by
  refine ⟨fun h0 => ?_, fun h0 h1 => ?_, fun j h0 h1 hobj => ?_,
    fun fields cs h0 h1 hcs hqs => ?_, fun fields qs h0 h1 hcs hqs => ?_,
    fun fields cs qs h0 h1 hcs hqs => ?_⟩
  · simp [plan_code_generation, h0]
  · simp [plan_code_generation, h0, h1]
  · cases j <;> simp_all [plan_code_generation, Json.isObj]
  · have hq : ∀ x, alistLookup fields "search_queries" = x →
        (x matches some (.arr _)) = false := by
      intro x hx
      cases x with
      | none => rfl
      | some v => cases v <;> first
        | rfl
        | exact absurd hx (hqs _)
    simp only [plan_code_generation, if_neg h0, h1, hcs]
    cases hx : alistLookup fields "search_queries" with
    | none => simp [default_plan, Json.setKey, alistSet]
    | some v =>
      have := hq (some v) hx
      cases v <;> simp_all [default_plan, Json.setKey, alistSet]
  · have hc : ∀ x, alistLookup fields "components" = x →
        (x matches some (.arr _)) = false := by
      intro x hx
      cases x with
      | none => rfl
      | some v => cases v <;> first
        | rfl
        | exact absurd hx (hcs _)
    simp only [plan_code_generation, if_neg h0, h1, hqs]
    cases hx : alistLookup fields "components" with
    | none => simp [default_plan, Json.setKey, alistSet]
    | some v =>
      have := hc (some v) hx
      cases v <;> simp_all [default_plan, Json.setKey, alistSet]
  · simp [plan_code_generation, h0, h1, hcs, hqs, default_plan, Json.setKey, alistSet]

/-- Witness for C5 at the spec's worked example: a response supplying only
`components` keeps the default `search_queries = [requirement]`. -/
theorem plan_default_and_override_witness :
    plan_code_generation "req" "etl" (.ok (some "resp"))
      (fun s => if s = "resp" then
        some (.obj [("components",
          .arr [.obj [("name", .str "a"), ("description", .str "d"),
                      ("priority", .int 1)]])])
        else none) =
      .obj [("components",
             .arr [.obj [("name", .str "a"), ("description", .str "d"),
                         ("priority", .int 1)]]),
            ("search_queries", .arr [.str "req"])] := by
  have h := (plan_default_and_override "req" "etl" (.ok (some "resp"))
      (fun s => if s = "resp" then
        some (.obj [("components",
          .arr [.obj [("name", .str "a"), ("description", .str "d"),
                      ("priority", .int 1)]])])
        else none)).2.2.2.1
    [("components",
      .arr [.obj [("name", .str "a"), ("description", .str "d"),
                  ("priority", .int 1)]])]
    [.obj [("name", .str "a"), ("description", .str "d"), ("priority", .int 1)]]
    (by simp [llmRaw]) (by simp [llmRaw]) (by simp [alistLookup])
    (by intro qs; simp [alistLookup])
  exact h

/-! ## C7 -/

/-- C7: both context-loader modes select their exemplar pool as the
flattened sections whose artifact name equals "code" case-insensitively,
falling back to the full flattened sequence when that filter is empty — so
the pool is non-empty whenever the flattened KB has any section. -/
theorem context_code_section_selection :
    (∀ (userFound : Bool) (kb : Except String Json) (flatten : Json → List PyDict)
       (tribal_kb : Json) (history : String) (pd : Json) (ctx : CoderContext),
       kb = .ok pd →
       load_coder_context userFound kb flatten tribal_kb history = .ok ctx →
       ctx.code_sections = code_sections_of (flatten pd))
  ∧ (∀ (pd : Json) (flatten : Json → List PyDict) (tribal_kb : Json) (history : String),
       (load_coder_context_sqlite pd flatten tribal_kb history).code_sections =
         code_sections_of (flatten pd))
  ∧ (∀ all_sections : List PyDict, (∃ e ∈ all_sections, is_code_section e = true) →
       code_sections_of all_sections = all_sections.filter is_code_section)
  ∧ (∀ all_sections : List PyDict, all_sections.filter is_code_section = [] →
       code_sections_of all_sections = all_sections)
  ∧ (∀ all_sections : List PyDict, all_sections ≠ [] →
       code_sections_of all_sections ≠ []) := by
  refine ⟨fun userFound kb flatten tribal_kb history pd ctx hkb h => ?_,
    fun pd flatten tribal_kb history => rfl,
    fun all hsome => ?_, fun all hnone => ?_, fun all hne => ?_⟩
  · subst hkb
    cases userFound with
    | false => simp [load_coder_context] at h
    | true =>
      simp only [load_coder_context, Bool.not_true, Bool.false_eq_true,
        if_false, Except.ok.injEq] at h
      exact h ▸ rfl
  · obtain ⟨e, he, hcode⟩ := hsome
    have : all.filter is_code_section ≠ [] := by
      intro hnil
      have := List.mem_filter.mpr ⟨he, hcode⟩
      simp [hnil] at this
    simp [code_sections_of, List.isEmpty_iff, this]
  · simp [code_sections_of, hnone]
  · intro hnil
    simp only [code_sections_of] at hnil
    by_cases hf : (all.filter is_code_section).isEmpty
    · rw [if_pos hf] at hnil
      exact hne hnil
    · rw [if_neg hf] at hnil
      rw [hnil] at hf
      simp at hf

/-- Witness for C7 on concrete inputs: the remote loader's sections equal
the filter's output, a mixed list keeps only the "Code" entry, and an
all-BRD list falls back to the full list. -/
theorem context_code_section_selection_witness :
    (load_coder_context_sqlite (.obj [])
        (fun _ => [[("artifact_name", .str "BRD")],
                   [("artifact_name", .str "Code"), ("section_name", .str "s")]])
        (.obj []) "").code_sections =
      code_sections_of [[("artifact_name", .str "BRD")],
                        [("artifact_name", .str "Code"), ("section_name", .str "s")]]
  ∧ code_sections_of [[("artifact_name", .str "BRD")],
                      [("artifact_name", .str "Code"), ("section_name", .str "s")]] =
      [[("artifact_name", .str "Code"), ("section_name", .str "s")]]
  ∧ code_sections_of [[("artifact_name", .str "BRD")]] = [[("artifact_name", .str "BRD")]]
  ∧ code_sections_of [[("artifact_name", .str "BRD")]] ≠ [] := by
  refine ⟨context_code_section_selection.2.1 (.obj [])
      (fun _ => [[("artifact_name", .str "BRD")],
                 [("artifact_name", .str "Code"), ("section_name", .str "s")]])
      (.obj []) "", ?_, ?_, ?_⟩
  · have h := context_code_section_selection.2.2.1
      [[("artifact_name", .str "BRD")],
       [("artifact_name", .str "Code"), ("section_name", .str "s")]]
      ⟨[("artifact_name", .str "Code"), ("section_name", .str "s")],
       List.mem_cons.mpr (Or.inr (List.mem_cons_self _ _)), rfl⟩
    rw [h]
    rfl
  · exact context_code_section_selection.2.2.2.1 [[("artifact_name", .str "BRD")]] rfl
  · exact context_code_section_selection.2.2.2.2 [[("artifact_name", .str "BRD")]]
      (by simp)

/-! ## C1 -/

/-- In-range indices always build an exemplar reporting that index. -/
theorem build_exemplar_of_range (secs : List PyDict) (i : Int)
    (h0 : 0 ≤ i) (h1 : i < (secs.length : Int)) :
    ∃ e, build_exemplar secs i = some e ∧ e.index = i := by
  have hlt : i.toNat < secs.length := by omega
  obtain ⟨entry, hget⟩ : ∃ entry, secs.get? i.toNat = some entry :=
    ⟨_, List.get?_eq_get hlt⟩
  refine ⟨{ index := i
            artifact_name := dictGetD entry "artifact_name" .null
            document_name := dictGetD entry "document_name" .null
            section_name := dictGetD entry "section_name" .null
            description := dictGetD entry "description" .null }, ?_, rfl⟩
  simp only [build_exemplar, pyIndex, if_pos h0, hget]
  rfl

/-- The neighbor loop collects, in probe order, the in-range neighbors,
capped at `max_exemplars` total entries. -/
theorem neighborLoop_spec (secs : List PyDict) (idx maxE : Int) :
    ∀ (offs : List Int) (acc : List Exemplar),
      neighborLoop secs idx maxE offs acc =
        acc ++ ((((offs.map (fun off => idx + off)).filter
            (fun nb => decide (0 ≤ nb) && decide (nb < (secs.length : Int)))).take
            ((maxE - acc.length).toNat)).filterMap (build_exemplar secs)) := by
  intro offs
  induction offs with
  | nil => intro acc; simp [neighborLoop]
  | cons off rest ih =>
    intro acc
    rw [neighborLoop]
    by_cases hfull : (acc.length : Int) ≥ maxE
    · have hz : (maxE - (acc.length : Int)).toNat = 0 := by omega
      simp [if_pos hfull, hz]
    · rw [if_neg hfull]
      have hsucc : (maxE - (acc.length : Int)).toNat =
          (maxE - ((acc.length : Int) + 1)).toNat + 1 := by omega
      by_cases hin : 0 ≤ idx + off ∧ idx + off < (secs.length : Int)
      · rw [if_pos hin, ih]
        obtain ⟨e, he, _⟩ := build_exemplar_of_range secs (idx + off) hin.1 hin.2
        simp only [List.map_cons, List.filter_cons,
          decide_eq_true hin.1, decide_eq_true hin.2, Bool.and_self, if_true,
          hsucc, List.take_succ_cons, List.filterMap_cons, he,
          List.append_assoc, List.length_append, he, Option.toList_some]
        simp [he, Nat.cast_add, List.append_assoc]
      · rw [if_neg hin, ih]
        have : (decide (0 ≤ idx + off) && decide (idx + off < (secs.length : Int))) = false := by
          rcases not_and_or.mp hin with h | h <;> simp [h]
        simp [List.filter_cons, this]

/-- Mapping `index` over the built exemplars of an in-range index list gives
back that list. -/
theorem filterMap_build_indices (secs : List PyDict) :
    ∀ l : List Int, (∀ nb ∈ l, 0 ≤ nb ∧ nb < (secs.length : Int)) →
      ((l.filterMap (build_exemplar secs)).map (fun e => e.index)) = l := by
  intro l
  induction l with
  | nil => intro _; rfl
  | cons nb rest ih =>
    intro h
    obtain ⟨e, he, hidx⟩ :=
      build_exemplar_of_range secs nb (h nb (List.mem_cons_self _ _)).1
        (h nb (List.mem_cons_self _ _)).2
    rw [List.filterMap_cons, he, List.map_cons, hidx,
      ih (fun x hx => h x (List.mem_cons.mpr (Or.inr hx)))]

/-- C1: with a valid chosen index the finder returns that exemplar first,
then the in-range members of `[idx-1, idx+1, idx-2, idx+2]` in that fixed
order until `max_exemplars` entries are reached; in particular, over a
five-section list, chosen index 2 with `max_exemplars=3` yields indices
`[2, 1, 3]`, and chosen index 0 with `max_exemplars=4` yields `[0, 1, 2]`. -/
theorem find_exemplars_neighbor_order :
    (∀ (requirement : String) (secs : List PyDict) (fields : List (String × Json))
       (idx maxE : Int),
       secs ≠ [] →
       alistLookup fields "chosen_section_index" = some (.int idx) →
       0 ≤ idx → idx < (secs.length : Int) →
       (find_function_exemplars requirement secs (.obj fields) maxE).map
           (fun l => l.map (fun e => e.index)) =
         .ok (idx :: (([idx - 1, idx + 1, idx - 2, idx + 2].filter
             (fun nb => decide (0 ≤ nb) && decide (nb < (secs.length : Int)))).take
             ((maxE - 1).toNat))))
  ∧ (find_function_exemplars "req" sections5 (dsChoose 2) 3).map
        (fun l => l.map (fun e => e.index)) = .ok [2, 1, 3]
  ∧ (find_function_exemplars "req" sections5 (dsChoose 0) 4).map
        (fun l => l.map (fun e => e.index)) = .ok [0, 1, 2] := by
  refine ⟨fun requirement secs fields idx maxE hne hfield h0 h1 => ?_, rfl, rfl⟩
  obtain ⟨e, he, hidx⟩ := build_exemplar_of_range secs idx h0 h1
  have hempty : secs.isEmpty = false := by
    cases secs with
    | nil => exact absurd rfl hne
    | cons a l => rfl
  rw [find_function_exemplars]
  rw [hempty]
  simp only [Bool.false_eq_true, if_false, hfield, Option.getD_some, pyAsInt, he]
  rw [neighborLoop_spec]
  have hrange : ∀ nb ∈ (([idx + -1, idx + 1, idx + -2, idx + 2]).filter
      (fun nb => decide (0 ≤ nb) && decide (nb < (secs.length : Int)))).take
      ((maxE - 1).toNat), 0 ≤ nb ∧ nb < (secs.length : Int) := by
    intro nb hnb
    have hmem := List.take_subset _ _ hnb
    have := (List.mem_filter.mp hmem).2
    constructor
    · exact of_decide_eq_true (Bool.and_elim_left this)
    · exact of_decide_eq_true (Bool.and_elim_right this)
  simp only [Except.map, List.map_append, List.map_cons, List.map_nil, hidx,
    List.length_cons, List.length_nil, Nat.cast_one, Nat.cast_zero, zero_add]
  rw [filterMap_build_indices secs _ hrange]
  norm_num [sub_eq_add_neg]

/-- Witness for C1: the general neighbor-order statement instantiated at the
five-section list, chosen index 2, `max_exemplars=3`, evaluating to indices
`[2, 1, 3]`. -/
theorem find_exemplars_neighbor_order_witness :
    (find_function_exemplars "req" sections5
        (.obj [("chosen_section_index", .int 2)]) 3).map
      (fun l => l.map (fun e => e.index)) = .ok [2, 1, 3] := by
  have h := find_exemplars_neighbor_order.1 "req" sections5
    [("chosen_section_index", .int 2)] 2 3
    (by simp [sections5]) rfl (by omega) (by norm_num [sections5])
  simpa [sections5] using h

/-! ## C3 -/

/-- C3 counterexample: the claim asserts that a negative chosen index always
makes the finder silently select a section from the end; at the one-element
section list with chosen index -2 (negative, magnitude exceeding the
length), the finder instead raises, so the claim is false as stated. -/
theorem find_exemplars_negative_index_counterexample :
    sections1 ≠ []
  ∧ (-2 : Int) < 0
  ∧ find_function_exemplars "req" sections1
      (.obj [("chosen_section_index", .int (-2))]) 3 =
      .error "IndexError: list index out of range" := by
  refine ⟨by simp [sections1], by omega, rfl⟩

/-- C3 (amended): the chosen index is used unchecked — an index `≥ length`
or `< -length` raises; a negative index with `-length ≤ idx < 0` silently
selects a section from the end (Python negative indexing) and reports the
negative number as the exemplar's index. -/
theorem find_exemplars_unchecked_index
    (requirement : String) (secs : List PyDict) (fields : List (String × Json))
    (idx maxE : Int) (hne : secs ≠ [])
    (hfield : alistLookup fields "chosen_section_index" = some (.int idx)) :
    (((secs.length : Int) ≤ idx ∨ idx < -(secs.length : Int)) →
      find_function_exemplars requirement secs (.obj fields) maxE =
        .error "IndexError: list index out of range")
  ∧ (-(secs.length : Int) ≤ idx → idx < 0 →
      ∃ e rest, find_function_exemplars requirement secs (.obj fields) maxE =
          .ok (e :: rest)
        ∧ e.index = idx
        ∧ build_exemplar secs idx = some e
        ∧ pyIndex secs idx = secs.get? ((secs.length : Int) + idx).toNat) := by
  have hempty : secs.isEmpty = false := by
    cases secs with
    | nil => exact absurd rfl hne
    | cons a l => rfl
  constructor
  · intro hout
    have hb : build_exemplar secs idx = none := by
      rcases hout with h | h
      · have h2 : secs.get? idx.toNat = none := List.get?_eq_none.mpr (by omega)
        rw [build_exemplar, pyIndex, if_pos (by omega : (0:Int) ≤ idx), h2]
        rfl
      · rw [build_exemplar, pyIndex, if_neg (by omega : ¬ (0 ≤ idx)),
          if_neg (by omega : ¬ ((0:Int) ≤ (secs.length : Int) + idx))]
        rfl
    rw [find_function_exemplars, hempty]
    simp only [Bool.false_eq_true, if_false, hfield, Option.getD_some, pyAsInt, hb]
  · intro hlo hneg
    have hnn : (0 : Int) ≤ (secs.length : Int) + idx := by omega
    have hlt : ((secs.length : Int) + idx).toNat < secs.length := by omega
    obtain ⟨entry, hget⟩ : ∃ entry, secs.get? ((secs.length : Int) + idx).toNat = some entry :=
      ⟨_, List.get?_eq_get hlt⟩
    have hpy : pyIndex secs idx = some entry := by
      rw [pyIndex, if_neg (by omega : ¬ (0 ≤ idx)), if_pos hnn]
      exact hget
    have hb : build_exemplar secs idx = some
        { index := idx
          artifact_name := dictGetD entry "artifact_name" .null
          document_name := dictGetD entry "document_name" .null
          section_name := dictGetD entry "section_name" .null
          description := dictGetD entry "description" .null } := by
      simp only [build_exemplar, hpy]
      rfl
    refine ⟨_, (((([-1, 1, -2, 2].map (fun off => idx + off)).filter
        (fun nb => decide (0 ≤ nb) && decide (nb < (secs.length : Int)))).take
        ((maxE - 1).toNat)).filterMap (build_exemplar secs)),
      ?_, rfl, hb, hpy.trans hget.symm⟩
    rw [find_function_exemplars, hempty]
    simp only [Bool.false_eq_true, if_false, hfield, Option.getD_some, pyAsInt, hb]
    rw [neighborLoop_spec]
    rfl

/-- Witness for C3 (amended): over the five-section list, chosen index 7
raises, and chosen index -1 selects the last section, reporting index -1. -/
theorem find_exemplars_unchecked_index_witness :
    find_function_exemplars "req" sections5
        (.obj [("chosen_section_index", .int 7)]) 3 =
      .error "IndexError: list index out of range"
  ∧ ∃ e rest, find_function_exemplars "req" sections5
        (.obj [("chosen_section_index", .int (-1))]) 3 = .ok (e :: rest)
      ∧ e.index = -1 := by
  constructor
  · exact (find_exemplars_unchecked_index "req" sections5
      [("chosen_section_index", .int 7)] 7 3 (by simp [sections5]) rfl).1
      (by norm_num [sections5])
  · obtain ⟨e, rest, hfind, hidx, -, -⟩ :=
      (find_exemplars_unchecked_index "req" sections5
        [("chosen_section_index", .int (-1))] (-1) 3 (by simp [sections5]) rfl).2
      (by norm_num [sections5]) (by omega)
    exact ⟨e, rest, hfind, hidx⟩

/-! ## C2 -/

/-- Removing a key that is present strictly shrinks the cache. -/
theorem alist_filter_length_lt (cache : KBCache) (k : String) (v : Json)
    (h : alistLookup cache k = some v) :
    (cache.filter (fun kv => kv.1 ≠ k)).length < cache.length := by
  induction cache with
  | nil => simp [alistLookup] at h
  | cons kv0 rest ih =>
    by_cases hk : kv0.1 = k
    · have : (decide (kv0.1 ≠ k)) = false := by simp [hk]
      simp only [List.filter_cons, this, List.length_cons]
      exact Nat.lt_succ_of_le (List.length_filter_le _ _)
    · have hl : alistLookup rest k = some v := by
        obtain ⟨k0, v0⟩ := kv0
        simpa [alistLookup, hk] using h
      have : (decide (kv0.1 ≠ k)) = true := by simp [hk]
      simp only [List.filter_cons, this, if_true, List.length_cons]
      exact Nat.succ_lt_succ (ih hl)

/-- C2 counterexample: the tribal-knowledge cache is keyed by the raw
project-type string, not by its trim+lowercase normalization — "python" and
"Python " normalize identically, yet after loading "python" a lookup of
"Python " still touches the filesystem, refuting the claim that any two
same-normalizing strings share one cache entry. -/
theorem load_tribal_kb_not_keyed_by_normalization :
    pyLower (pyStrip "python") = pyLower (pyStrip "Python ")
  ∧ (load_tribal_kb missingFS [] "python").2.2 = true
  ∧ (load_tribal_kb missingFS
      (load_tribal_kb missingFS [] "python").2.1 "Python ").2.2 = true := by
  exact ⟨by decide, rfl, rfl⟩

/-- C2 (amended): memoization is per raw project-type string in a bounded
cache of capacity 32: a repeated lookup of the same string returns the
cached value without touching the filesystem, the cache never exceeds 32
entries, and an unknown project type (no KB file) yields the empty
mapping. -/
theorem load_tribal_kb_memoized_per_raw_key
    (fs : String → FileOutcome) (cache : KBCache) (project_type : String) :
    ((load_tribal_kb fs (load_tribal_kb fs cache project_type).2.1 project_type).1 =
      (load_tribal_kb fs cache project_type).1)
  ∧ ((load_tribal_kb fs (load_tribal_kb fs cache project_type).2.1 project_type).2.2 =
      false)
  ∧ (cache.length ≤ 32 → (load_tribal_kb fs cache project_type).2.1.length ≤ 32)
  ∧ (project_type ≠ "" →
      fs ("tribal_kb/" ++ pyLower (pyStrip project_type) ++ ".json") = .missing →
      alistLookup cache project_type = none →
      (load_tribal_kb fs cache project_type).1 = .obj []) := by
  cases h : alistLookup cache project_type with
  | some v =>
    refine ⟨?_, ?_, ?_, ?_⟩
    · simp [load_tribal_kb, h, alistLookup]
    · simp [load_tribal_kb, h, alistLookup]
    · intro hle
      simp only [load_tribal_kb, h, List.length_cons]
      exact Nat.succ_le_of_lt
        (Nat.lt_of_lt_of_le (alist_filter_length_lt cache project_type v h) hle)
    · intro _ _ hnone
      exact absurd hnone (by simp)
  | none =>
    have hc1 : (load_tribal_kb fs cache project_type).2.1 =
        (project_type, (load_tribal_kb_uncached fs project_type).1) ::
          cache.take 31 := by
      simp [load_tribal_kb, h, List.take_succ_cons]
    refine ⟨?_, ?_, ?_, ?_⟩
    · rw [hc1]
      simp [load_tribal_kb, h, alistLookup]
    · rw [hc1]
      simp [load_tribal_kb, h, alistLookup]
    · intro _
      simp only [load_tribal_kb, h]
      exact le_trans (List.length_take_le 32 _) (le_refl 32)
    · intro hne hfs _
      simp only [load_tribal_kb, h, load_tribal_kb_uncached, if_neg hne, hfs]

/-- Witness for C2 (amended): loading "etl" with no KB file yields the
empty mapping; a second lookup returns the cached value with no filesystem
access. -/
theorem load_tribal_kb_memoized_per_raw_key_witness :
    (load_tribal_kb missingFS (load_tribal_kb missingFS [] "etl").2.1 "etl").1 = .obj []
  ∧ (load_tribal_kb missingFS (load_tribal_kb missingFS [] "etl").2.1 "etl").2.2 = false
  ∧ (load_tribal_kb missingFS [] "etl").2.1.length ≤ 32
  ∧ (load_tribal_kb missingFS [] "etl").1 = .obj [] := by
  have h := load_tribal_kb_memoized_per_raw_key missingFS [] "etl"
  refine ⟨?_, h.2.1, h.2.2.1 (by simp), h.2.2.2 (by decide) rfl rfl⟩
  rw [h.1]
  exact h.2.2.2 (by decide) rfl rfl

/-! ## C9 -/

/-- C9: a raised code-generation LLM call is re-raised by the generator (no
fallback), and at the remote entry point the uncaught pipeline exception
finalizes the audit record as FAILED and surfaces as a 500 response whose
detail embeds the exception text. -/
theorem generation_failure_propagates :
    (∀ (requirement project_type : String) (exemplars : List Exemplar)
       (tribal_kb : Json) (conversation_history : String) (e : String),
       generate_code_with_exemplars requirement project_type exemplars tribal_kb
         conversation_history (.error e) = .error e)
  ∧ (∀ (o : RemoteOracles) (pd : Json) (ex : List Exemplar) (e : String),
       o.userExists = true → o.projectExists = true → o.kb_json_path ≠ "" →
       o.s3Content = .ok pd → pd.isObj = true →
       find_function_exemplars o.requirements (code_sections_of (o.flatten pd))
         o.dsResult 3 = .ok ex →
       o.genLLM = .error e →
       coder_generate_remote o =
         { status := 500, detail := some ("Coder agent failed: " ++ e),
           body := none, execStatus := some ExecStatus.FAILED }) := by
  refine ⟨fun _ _ _ _ _ _ => rfl,
    fun o pd ex e huser hproj hpath hs3 hobj hfind hgen => ?_⟩
  have hkb : load_project_kb_json o.projectExists o.kb_json_path o.s3Content =
      .ok pd := by
    simp [load_project_kb_json, hproj, hpath, hs3, hobj]
  have hctx : load_coder_context o.userExists
      (load_project_kb_json o.projectExists o.kb_json_path o.s3Content)
      o.flatten o.tribal_kb o.history =
      .ok { project_data := pd, code_sections := code_sections_of (o.flatten pd),
            tribal_kb := o.tribal_kb, conversation_history := o.history } := by
    simp [load_coder_context, huser, hkb]
  have hpipe : remote_pipeline o = .error e := by
    simp only [remote_pipeline, hctx]
    simp only [hfind, generate_code_with_exemplars, hgen]
  simp [coder_generate_remote, huser, hproj, hpipe]

/-- Witness for C9: a concrete request whose generation call raises
"rate limit" yields the 500/FAILED outcome. -/
theorem generation_failure_propagates_witness :
    coder_generate_remote
      { user_id := 1, project_id := 2, requirements := "req", project_type := "etl",
        userExists := true, projectExists := true, kb_json_path := "s3://b/kb.json",
        s3Content := .ok (.obj []), flatten := fun _ => sections5,
        tribal_kb := .obj [], history := "", plannerLLM := .ok none,
        genLLM := .error "rate limit", valLLM := .ok none, loads := loadsNone,
        dsResult := .null } =
      { status := 500, detail := some ("Coder agent failed: " ++ "rate limit"),
        body := none, execStatus := some ExecStatus.FAILED } := by
  exact generation_failure_propagates.2
    { user_id := 1, project_id := 2, requirements := "req", project_type := "etl",
      userExists := true, projectExists := true, kb_json_path := "s3://b/kb.json",
      s3Content := .ok (.obj []), flatten := fun _ => sections5,
      tribal_kb := .obj [], history := "", plannerLLM := .ok none,
      genLLM := .error "rate limit", valLLM := .ok none, loads := loadsNone,
      dsResult := .null }
    (.obj []) [] "rate limit" rfl rfl (by simp) rfl rfl rfl rfl

/-! ## C10 -/

/-- C10: when generation returns a non-empty completion and the parsed
validator verdict has a falsy `is_valid`, both route variants answer HTTP
201 with `success=true` and the message "Code generation completed with
warnings", and the remote variant finalizes the audit record as
AWAITING_FEEDBACK (the SQLite variant has no audit record). -/
theorem invalid_verdict_yields_201_with_warnings :
    (∀ (o : RemoteOracles) (pd : Json) (ex : List Exemplar) (rawCode vs : String)
       (fields : List (String × Json)),
       o.userExists = true → o.projectExists = true → o.kb_json_path ≠ "" →
       o.s3Content = .ok pd → pd.isObj = true →
       find_function_exemplars o.requirements (code_sections_of (o.flatten pd))
         o.dsResult 3 = .ok ex →
       o.genLLM = .ok (some rawCode) → pyStrip rawCode ≠ "" →
       o.valLLM = .ok (some vs) → o.loads vs = some (.obj fields) →
       truthy ((alistLookup fields "is_valid").getD (.bool true)) = false →
       (coder_generate_remote o).status = 201
       ∧ (coder_generate_remote o).body.map (fun b => b.success) = some true
       ∧ (coder_generate_remote o).body.map (fun b => b.message) =
           some "Code generation completed with warnings"
       ∧ (coder_generate_remote o).execStatus = some ExecStatus.AWAITING_FEEDBACK)
  ∧ (∀ (o : SqliteOracles) (pd : Json) (ex : List Exemplar) (rawCode vs : String)
       (fields : List (String × Json)),
       o.projectData = some pd →
       find_function_exemplars o.requirements (code_sections_of (o.flatten pd))
         o.dsResult 3 = .ok ex →
       o.genLLM = .ok (some rawCode) → pyStrip rawCode ≠ "" →
       o.valLLM = .ok (some vs) → o.loads vs = some (.obj fields) →
       truthy ((alistLookup fields "is_valid").getD (.bool true)) = false →
       (coder_generate_sqlite o).status = 201
       ∧ (coder_generate_sqlite o).body.map (fun b => b.success) = some true
       ∧ (coder_generate_sqlite o).body.map (fun b => b.message) =
           some "Code generation completed with warnings"
       ∧ (coder_generate_sqlite o).execStatus = none) := by
  constructor
  · intro o pd ex rawCode vs fields huser hproj hpath hs3 hobj hfind hgen hraw
      hvllm hloads hvalid
    have hkb : load_project_kb_json o.projectExists o.kb_json_path o.s3Content =
        .ok pd := by
      simp [load_project_kb_json, hproj, hpath, hs3, hobj]
    have hctx : load_coder_context o.userExists
        (load_project_kb_json o.projectExists o.kb_json_path o.s3Content)
        o.flatten o.tribal_kb o.history =
        .ok { project_data := pd, code_sections := code_sections_of (o.flatten pd),
              tribal_kb := o.tribal_kb, conversation_history := o.history } := by
      simp [load_coder_context, huser, hkb]
    have hgenr : ∀ (exx : List Exemplar) (tk : Json) (ch : String),
        generate_code_with_exemplars o.requirements o.project_type exx tk ch
          o.genLLM = .ok rawCode := by
      intro exx tk ch
      simp [generate_code_with_exemplars, hgen]
    have hval : validate_generated_code rawCode o.project_type o.requirements
        o.valLLM o.loads = (false, .obj fields) := by
      simp [validate_generated_code, hraw, hvllm, hloads, Json.isObj, hvalid]
    have hpipe : remote_pipeline o =
        .ok (plan_code_generation o.requirements o.project_type o.plannerLLM o.loads,
          ex, rawCode, false, .obj fields) := by
      simp only [remote_pipeline, hctx]
      simp only [hfind, hgenr, hval]
    simp [coder_generate_remote, huser, hproj, hpipe]
  · intro o pd ex rawCode vs fields hpd hfind hgen hraw hvllm hloads hvalid
    have hgenr : ∀ (exx : List Exemplar) (tk : Json) (ch : String),
        generate_code_with_exemplars o.requirements o.project_type exx tk ch
          o.genLLM = .ok rawCode := by
      intro exx tk ch
      simp [generate_code_with_exemplars, hgen]
    have hval : validate_generated_code rawCode o.project_type o.requirements
        o.valLLM o.loads = (false, .obj fields) := by
      simp [validate_generated_code, hraw, hvllm, hloads, Json.isObj, hvalid]
    have hpipe : sqlite_pipeline o pd =
        .ok (plan_code_generation o.requirements o.project_type o.plannerLLM o.loads,
          ex, rawCode, false, .obj fields) := by
      simp only [sqlite_pipeline, load_coder_context_sqlite]
      simp only [hfind, hgenr, hval]
    simp [coder_generate_sqlite, hpd, hpipe]

/-- Concrete remote-variant oracles for the C10 scenario: non-empty
completion, validator verdict `{"is_valid": false}`. -/
def remoteInvalidVerdict : RemoteOracles :=
  { user_id := 1, project_id := 2, requirements := "req", project_type := "etl",
    userExists := true, projectExists := true, kb_json_path := "s3://b/kb.json",
    s3Content := .ok (.obj []), flatten := fun _ => sections5,
    tribal_kb := .obj [], history := "", plannerLLM := .ok none,
    genLLM := .ok (some "print(1)"), valLLM := .ok (some "verdict"),
    loads := fun s => if s = "verdict" then some (.obj [("is_valid", .bool false)])
             else none,
    dsResult := .null }

/-- Concrete SQLite-variant oracles for the same C10 scenario. -/
def sqliteInvalidVerdict : SqliteOracles :=
  { project_name := "p", requirements := "req", project_type := "etl",
    projectData := some (.obj []), flatten := fun _ => sections5,
    tribal_kb := .obj [], history := "", plannerLLM := .ok none,
    genLLM := .ok (some "print(1)"), valLLM := .ok (some "verdict"),
    loads := fun s => if s = "verdict" then some (.obj [("is_valid", .bool false)])
             else none,
    dsResult := .null }

/-- Witness for C10 on both concrete requests. -/
theorem invalid_verdict_yields_201_with_warnings_witness :
    ((coder_generate_remote remoteInvalidVerdict).status = 201
      ∧ (coder_generate_remote remoteInvalidVerdict).body.map (fun b => b.success) =
          some true
      ∧ (coder_generate_remote remoteInvalidVerdict).body.map (fun b => b.message) =
          some "Code generation completed with warnings"
      ∧ (coder_generate_remote remoteInvalidVerdict).execStatus =
          some ExecStatus.AWAITING_FEEDBACK)
  ∧ ((coder_generate_sqlite sqliteInvalidVerdict).status = 201
      ∧ (coder_generate_sqlite sqliteInvalidVerdict).body.map (fun b => b.success) =
          some true
      ∧ (coder_generate_sqlite sqliteInvalidVerdict).body.map (fun b => b.message) =
          some "Code generation completed with warnings"
      ∧ (coder_generate_sqlite sqliteInvalidVerdict).execStatus = none) := by
  exact ⟨invalid_verdict_yields_201_with_warnings.1 remoteInvalidVerdict (.obj []) []
      "print(1)" "verdict" [("is_valid", .bool false)]
      rfl rfl (by decide) rfl rfl rfl rfl (by decide) rfl rfl rfl,
    invalid_verdict_yields_201_with_warnings.2 sqliteInvalidVerdict (.obj []) []
      "print(1)" "verdict" [("is_valid", .bool false)]
      rfl rfl rfl (by decide) rfl rfl rfl⟩
